import Mathlib

/-!
Verification of the presidio-anonymizer HTTP boundary
(src/presidio-anonymizer/app.py) against its specification.

The file shallowly embeds the request handlers of `app.py` as pure Lean
functions.  A parsed request body is an `Option Json` (`none` for an
absent or unparseable body); the anonymize / deanonymize engines — external
collaborators — are passed in as function parameters, so that a theorem
quantified over the engine expresses that the handler's outcome does not
depend on (hence never invokes) the engine.  The translation layer
(`AppEntitiesConvertor`), which lives in the external `presidio_anonymizer`
package and is not part of this repository's sources, is modelled from the
specification's description of the Request Translator.
-/

/-- A JSON value, the shape of a parsed request body. -/
inductive Json where
  | null : Json
  | str (s : String) : Json
  | num (n : Int) : Json
  | bool (b : Bool) : Json
  | arr (xs : List Json) : Json
  | obj (fields : List (String × Json)) : Json

/-- Python truthiness of a parsed JSON value: `None`, `""`, `0`, `False`,
`[]` and `{}` are falsy.  The handlers guard with `if not content`. -/
def Json.isFalsy : Json → Bool
  | .null => true
  | .str s => s == ""
  | .num n => n == 0
  | .bool b => !b
  | .arr xs => xs.isEmpty
  | .obj fs => fs.isEmpty

/-- Field lookup in a JSON object (parsed JSON objects have unique keys). -/
def Json.lookupField (k : String) : List (String × Json) → Option Json
  | [] => none
  | (k', v) :: rest => if k' == k then some v else Json.lookupField k rest

/-- The exceptions the handlers can raise, matching the three error handlers
registered in `app.py`: `InvalidParamError`, werkzeug `HTTPException`
(with its description and numeric code; `BadRequest` has code 400), and
any other Python exception. -/
inductive AppException where
  | invalidParamError (err_msg : String) : AppException
  | httpException (description : String) (code : Nat) : AppException
  | otherException (detail : String) : AppException

/-- `content.get(key)` on the parsed body: on a dict it returns the value
or `None`; on any non-dict Python value it raises `AttributeError`, an
unclassified exception. -/
def Json.dictGet : Json → String → Except AppException (Option Json)
  | .obj fields, k => .ok (Json.lookupField k fields)
  | _, _ => .error (.otherException "AttributeError: object has no attribute get")

/-- `content.get(key, default)`: the value when the key is present, the
supplied default otherwise. -/
def Json.dictGetD (j : Json) (k : String) (d : Json) : Except AppException Json := do
  let o ← j.dictGet k
  pure (o.getD d)

/-- A detected sensitive span (`RecognizerResult` in presidio).  The
optional confidence score is kept as the raw JSON value: it never
influences the control flow verified here. -/
structure RecognizerResult where
  entity_type : String
  start : Int
  end_ : Int
  score : Json

/-- One transformation rule (`OperatorConfig` in presidio): the operator
kind and its remaining transformation-specific parameters. -/
structure OperatorConfig where
  operator_name : String
  params : List (String × Json)

/-- A previously anonymized span with its restoration metadata
(`OperatorResult` in presidio), consumed by the deanonymize path. -/
structure OperatorResult where
  entity_type : String
  start : Int
  end_ : Int
  text : String
  operator : String

/-- One per-entity outcome record in an engine result. -/
structure ResultItem where
  entity_type : String
  start : Int
  end_ : Int
  operator : String

/-- The result an engine returns: the transformed text and the ordered
outcome records. -/
structure EngineResult where
  text : String
  items : List ResultItem

/-- Serialization of an outcome record to the wire shape. -/
def ResultItem.to_json (it : ResultItem) : Json :=
  Json.obj [("entity_type", .str it.entity_type), ("start", .num it.start),
            ("end", .num it.end_), ("operator", .str it.operator)]

/-- `EngineResult.to_json`: the success wire shape
`\x7b text, items \x7d`. -/
def EngineResult.to_json (r : EngineResult) : Json :=
  Json.obj [("text", .str r.text), ("items", .arr (r.items.map ResultItem.to_json))]

/-- The anonymization engine as an external collaborator: a function of
the text value, translated entities and operator configs, which either
returns a result or raises. -/
def AnonEngine : Type :=
  Json → List RecognizerResult → List (String × OperatorConfig) →
    Except AppException EngineResult

/-- The deanonymization engine as an external collaborator. -/
def DeanonEngine : Type :=
  Json → List OperatorResult → List (String × OperatorConfig) →
    Except AppException EngineResult

namespace AppEntitiesConvertor

/-- Modelled from the spec: the fixed registry of supported operator
kinds that the Request Translator validates operator names against and
that the engines' `get_anonymizers` / `get_deanonymizers` report.  The
registry itself lives in the external presidio package. -/
def operatorRegistry : List String :=
  ["replace", "redact", "mask", "hash", "encrypt", "custom", "keep"]

/-- Modelled from the spec: parsing of one raw analyzer-result mapping.
Missing required field, a non-numeric offset, a negative start, or
`start >= end` fails with a validation message naming the offending
field (the translator raises every such message as `InvalidParam`). -/
def analyzer_result_from_json (j : Json) : Except String RecognizerResult :=
  match j with
  | .obj fields =>
    match Json.lookupField "entity_type" fields with
    | some (.str et) =>
      match Json.lookupField "start" fields with
      | some (.num s) =>
        match Json.lookupField "end" fields with
        | some (.num e) =>
          if s < 0 then
            .error "Invalid input, start must be a non-negative integer"
          else if e ≤ s then
            .error "Invalid input, start index must be smaller than end index"
          else
            .ok ⟨et, s, e, (Json.lookupField "score" fields).getD (.num 0)⟩
        | some _ => .error "Invalid input, end must be an integer"
        | none => .error "Invalid input, analyzer result must contain end"
      | some _ => .error "Invalid input, start must be an integer"
      | none => .error "Invalid input, analyzer result must contain start"
    | some _ => .error "Invalid input, entity_type must be a string"
    | none => .error "Invalid input, analyzer result must contain entity_type"
  | _ => .error "Invalid input, analyzer result must be a json object"

/-- Element-wise translation of a raw analyzer-result sequence, failing
fast on the first malformed element. -/
def analyzer_results_from_list : List Json → Except String (List RecognizerResult)
  | [] => .ok []
  | x :: xs => do
    let r ← analyzer_result_from_json x
    let rs ← analyzer_results_from_list xs
    pure (r :: rs)

/-- Modelled from the spec: `analyzer_results_from_json`.  An absent value
(`None`) yields the empty sequence; a sequence is translated element-wise;
every failure is `InvalidParam`. -/
def analyzer_results_from_json (j : Json) : Except AppException (List RecognizerResult) :=
  match j with
  | .null => .ok []
  | .arr xs => (analyzer_results_from_list xs).mapError AppException.invalidParamError
  | _ => .error (.invalidParamError "Invalid input, analyzer results must be a list")

/-- Modelled from the spec: parsing of one raw operator-config mapping.
It must carry a `type` naming a registered operator kind; the remaining
fields are the operator parameters. -/
def operator_config_from_json (j : Json) : Except String OperatorConfig :=
  match j with
  | .obj fields =>
    match Json.lookupField "type" fields with
    | some (.str name) =>
      if name ∈ operatorRegistry then
        .ok ⟨name, fields.filter (fun f => f.1 ≠ "type")⟩
      else
        .error ("Invalid operator class " ++ name)
    | some _ => .error "Invalid input, operator type must be a string"
    | none => .error "Invalid input, operator config must contain type"
  | _ => .error "Invalid input, operator config must be a json object"

/-- Element-wise translation of the operator-config mapping, keeping each
entity-type key. -/
def operator_configs_from_fields :
    List (String × Json) → Except String (List (String × OperatorConfig))
  | [] => .ok []
  | f :: fs => do
    let cfg ← operator_config_from_json f.2
    let rest ← operator_configs_from_fields fs
    pure ((f.1, cfg) :: rest)

/-- Modelled from the spec: `operators_config_from_json`.  An absent value
yields the implicit DEFAULT replace rule, so callers that supply no
anonymizers still get deterministic fallback behavior; a mapping is
translated entry-wise, keyed by entity type (or DEFAULT); every failure
is `InvalidParam`. -/
def operators_config_from_json (j : Json) :
    Except AppException (List (String × OperatorConfig)) :=
  match j with
  | .null => .ok [("DEFAULT", ⟨"replace", []⟩)]
  | .obj fields =>
    (operator_configs_from_fields fields).mapError AppException.invalidParamError
  | _ => .error (.invalidParamError "Invalid input, anonymizers must be a json object")

/-- Modelled from the spec: `check_custom_operator` returns true exactly
when some parsed config's operator kind is the reserved "custom". -/
def check_custom_operator (cfgs : List (String × OperatorConfig)) : Bool :=
  cfgs.any (fun c => c.2.operator_name == "custom")

/-- Modelled from the spec: parsing of one previously anonymized span with
its restoration metadata; same offset validation as analyzer results,
additionally requiring the metadata (`text`, `operator`) to be present. -/
def deanonymize_entity_from_json (j : Json) : Except String OperatorResult :=
  match j with
  | .obj fields =>
    match Json.lookupField "entity_type" fields, Json.lookupField "start" fields,
          Json.lookupField "end" fields, Json.lookupField "text" fields,
          Json.lookupField "operator" fields with
    | some (.str et), some (.num s), some (.num e), some (.str t), some (.str op) =>
      if s < 0 then
        .error "Invalid input, start must be a non-negative integer"
      else if e ≤ s then
        .error "Invalid input, start index must be smaller than end index"
      else
        .ok ⟨et, s, e, t, op⟩
    | _, _, _, _, _ =>
      .error "Invalid input, anonymizer result is malformed"
  | _ => .error "Invalid input, anonymizer result must be a json object"

/-- Element-wise translation of the previously anonymized spans. -/
def deanonymize_entities_from_list : List Json → Except String (List OperatorResult)
  | [] => .ok []
  | x :: xs => do
    let r ← deanonymize_entity_from_json x
    let rs ← deanonymize_entities_from_list xs
    pure (r :: rs)

/-- Modelled from the spec: `deanonymize_entities_from_json` reads the
previously anonymized spans (field `anonymizer_results` of the request
body) and translates them element-wise; every validation failure is
`InvalidParam`. -/
def deanonymize_entities_from_json (content : Json) :
    Except AppException (List OperatorResult) := do
  let raw ← content.dictGet "anonymizer_results"
  match raw.getD .null with
  | .null => .ok []
  | .arr xs => (deanonymize_entities_from_list xs).mapError AppException.invalidParamError
  | _ => .error (.invalidParamError "Invalid input, anonymizer results must be a list")

end AppEntitiesConvertor

/-- Modelled from the spec: `AnonymizerEngine.get_anonymizers`, the
engine registry of supported anonymizer kinds. -/
def AnonymizerEngine.get_anonymizers : List String :=
  AppEntitiesConvertor.operatorRegistry

/-- Modelled from the spec: `DeanonymizeEngine.get_deanonymizers`, the
engine registry of supported deanonymizer kinds. -/
def DeanonymizeEngine.get_deanonymizers : List String :=
  AppEntitiesConvertor.operatorRegistry

namespace Server

/-- The shared entry check of every POST handler:
`content = request.get_json(); if not content: raise BadRequest("Invalid request json")`.
An absent or unparseable body (`none`) and a falsy parsed value are both
rejected with `BadRequest` (code 400). -/
def requireContent (content : Option Json) : Except AppException Json :=
  match content with
  | none => .error (.httpException "Invalid request json" 400)
  | some c =>
    if c.isFalsy then .error (.httpException "Invalid request json" 400)
    else .ok c

/-- The `/anonymize` handler (app.py lines 93-113): parse the operator
configs, reject any custom operator with `BadRequest`, translate the
analyzer results, then dispatch to the engine with `text` defaulting to
the empty string. -/
def anonymize (engine : AnonEngine) (content : Option Json) :
    Except AppException Json := do
  let c ← requireContent content
  let rawAnon ← c.dictGet "anonymizers"
  let anonymizers_config ←
    AppEntitiesConvertor.operators_config_from_json (rawAnon.getD .null)
  if AppEntitiesConvertor.check_custom_operator anonymizers_config then
    throw (.httpException "Custom type anonymizer is not supported" 400)
  let rawResults ← c.dictGet "analyzer_results"
  let analyzer_results ←
    AppEntitiesConvertor.analyzer_results_from_json (rawResults.getD .null)
  let text ← c.dictGetD "text" (.str "")
  let result ← engine text analyzer_results anonymizers_config
  pure result.to_json

/-- The `/deanonymize` handler (app.py lines 114-131): read `text`
(defaulting to the empty string), translate the anonymized spans and the
deanonymizer configs, then dispatch to the deanonymize engine. -/
def deanonymize (engine : DeanonEngine) (content : Option Json) :
    Except AppException Json := do
  let c ← requireContent content
  let text ← c.dictGetD "text" (.str "")
  let deanonymize_entities ←
    AppEntitiesConvertor.deanonymize_entities_from_json c
  let rawDeanon ← c.dictGet "deanonymizers"
  let deanonymize_config ←
    AppEntitiesConvertor.operators_config_from_json (rawDeanon.getD .null)
  let response ← engine text deanonymize_entities deanonymize_config
  pure response.to_json

/-- The `/genz` handler (app.py lines 42-78): like `/anonymize` but with
explicit defaults `[]` / `\x7b\x7d` for the raw fields and, notably,
without the custom-operator rejection.  Its `except` clause only logs and
re-raises, so it is semantically transparent. -/
def genz (engine : AnonEngine) (content : Option Json) :
    Except AppException Json := do
  let c ← requireContent content
  let text ← c.dictGetD "text" (.str "")
  let analyzer_results_json ← c.dictGetD "analyzer_results" (.arr [])
  let anonymizers_json ← c.dictGetD "anonymizers" (.obj [])
  let analyzer_results ←
    AppEntitiesConvertor.analyzer_results_from_json analyzer_results_json
  let anonymizers_config ←
    AppEntitiesConvertor.operators_config_from_json anonymizers_json
  let anonymizer_result ← engine text analyzer_results anonymizers_config
  pure anonymizer_result.to_json

/-- The `/health` handler (app.py lines 79-82). -/
def health : Unit → String :=
  fun _ => "Presidio Anonymizer service is up"

/-- The `/anonymizers` handler (app.py lines 132-135): the engine's
registry, serialized unmodified. -/
def anonymizers : Json :=
  Json.arr (AnonymizerEngine.get_anonymizers.map Json.str)

/-- The `/deanonymizers` handler (app.py lines 136-139). -/
def deanonymizers : Json :=
  Json.arr (DeanonymizeEngine.get_deanonymizers.map Json.str)

/-- An HTTP response: numeric status and JSON body. -/
structure HttpResponse where
  status : Nat
  body : Json

/-- The `InvalidParamError` handler (app.py lines 140-145): 422 with the
specific validation message. -/
def invalid_param (err_msg : String) : HttpResponse :=
  ⟨422, Json.obj [("error", .str err_msg)]⟩

/-- The `HTTPException` handler (app.py lines 146-148): the exception's
description and its own code. -/
def http_exception (description : String) (code : Nat) : HttpResponse :=
  ⟨code, Json.obj [("error", .str description)]⟩

/-- The catch-all `Exception` handler (app.py lines 149-152): the detail
is logged, the caller sees only the fixed opaque text. -/
def server_error (_detail : String) : HttpResponse :=
  ⟨500, Json.obj [("error", .str "Internal server error")]⟩

/-- Flask's dispatch to the most specific registered error handler. -/
def errorMapper : AppException → HttpResponse
  | .invalidParamError m => invalid_param m
  | .httpException d c => http_exception d c
  | .otherException e => server_error e

/-- A whole endpoint run: a successful handler body with status 200, any
raised exception routed through the error handlers. -/
def runEndpoint (r : Except AppException Json) : HttpResponse :=
  match r with
  | .ok j => ⟨200, j⟩
  | .error e => errorMapper e

end Server

/-! ## Reduction lemmas for the `Except` monad operations -/

@[simp] lemma exceptPure_eq (a : α) : (pure a : Except ε α) = .ok a := rfl

@[simp] lemma exceptThrow_eq (e : ε) : (throw e : Except ε α) = .error e := rfl

@[simp] lemma exceptBind_ok (a : α) (f : α → Except ε β) :
    (Except.ok a >>= f) = f a := rfl

@[simp] lemma exceptBind_error (e : ε) (f : α → Except ε β) :
    ((Except.error e : Except ε α) >>= f) = .error e := rfl

@[simp] lemma exceptMap_ok (f : α → β) (a : α) :
    (f <$> (Except.ok a : Except ε α)) = .ok (f a) := rfl

@[simp] lemma exceptMap_error (f : α → β) (e : ε) :
    (f <$> (Except.error e : Except ε α)) = .error e := rfl

@[simp] lemma exceptMapError_ok (f : ε → ε') (a : α) :
    (Except.ok a : Except ε α).mapError f = .ok a := rfl

@[simp] lemma exceptMapError_error (f : ε → ε') (e : ε) :
    (Except.error e : Except ε α).mapError f = .error (f e) := rfl

/-! ## Theorems -/

/-- C2: the error mapper realizes exactly the three-tier classification,
each tier with body shape `\x7b error: string \x7d`: a validation error
becomes a 422 carrying the specific validation message, an HTTP error
becomes a client-error response carrying its own description and code,
and any other exception becomes a 500 whose error string is the fixed
opaque text "Internal server error", independent of the underlying
detail. -/
theorem error_mapper_three_tiers (m d detail : String) (c : Nat) :
    Server.errorMapper (.invalidParamError m) =
      ⟨422, Json.obj [("error", .str m)]⟩ ∧
    Server.errorMapper (.httpException d c) =
      ⟨c, Json.obj [("error", .str d)]⟩ ∧
    Server.errorMapper (.otherException detail) =
      ⟨500, Json.obj [("error", .str "Internal server error")]⟩ :=
  ⟨rfl, rfl, rfl⟩

/-- C3: an absent or unparseable request body fails both POST handlers
with `BadRequest` (code 400, message "Invalid request json"); the result
is the same for every engine, so no translation or engine invocation can
have taken place. -/
theorem absent_body_bad_request (ae : AnonEngine) (de : DeanonEngine) :
    Server.anonymize ae none =
      .error (.httpException "Invalid request json" 400) ∧
    Server.deanonymize de none =
      .error (.httpException "Invalid request json" 400) :=
  ⟨rfl, rfl⟩

/-- C8: the health probe returns the same fixed availability string on
every invocation. -/
theorem health_constant (u v : Unit) :
    Server.health u = "Presidio Anonymizer service is up" ∧
    Server.health u = Server.health v :=
  ⟨rfl, rfl⟩

/-- C10: a present but falsy-empty body (the JSON object `\x7b\x7d`) is
rejected with `BadRequest` "Invalid request json" exactly as an absent
body is, on all three POST handlers and for every engine, because the
guard tests falsiness of the parsed content rather than its absence. -/
theorem empty_body_rejected_like_absent (ae ge : AnonEngine) (de : DeanonEngine) :
    Server.anonymize ae (some (Json.obj [])) = Server.anonymize ae none ∧
    Server.deanonymize de (some (Json.obj [])) = Server.deanonymize de none ∧
    Server.genz ge (some (Json.obj [])) = Server.genz ge none ∧
    Server.anonymize ae (some (Json.obj [])) =
      .error (.httpException "Invalid request json" 400) :=
  ⟨rfl, rfl, rfl, rfl⟩

/-- C9: the `/genz` handler applies no custom-operator rejection: on a
concrete request whose anonymizers contain an operator of kind "custom",
it does not fail with `BadRequest` but hands the parsed configs —
including the custom operator — straight to the engine, whose outcome
becomes the response. -/
theorem genz_no_custom_rejection (engine : AnonEngine) :
    AppEntitiesConvertor.check_custom_operator
      [("PERSON", ⟨"custom", []⟩)] = true ∧
    Server.genz engine
      (some (Json.obj [("text", .str "hi"),
        ("anonymizers", .obj [("PERSON", .obj [("type", .str "custom")])])])) =
      Except.bind (engine (.str "hi") [] [("PERSON", ⟨"custom", []⟩)])
        (fun r => .ok r.to_json) :=
  ⟨rfl, rfl⟩

/-- Any config list with an entry of operator kind "custom" is flagged by
`check_custom_operator`. -/
lemma check_custom_operator_of_mem (cfgs : List (String × OperatorConfig))
    (h : ∃ p ∈ cfgs, p.2.operator_name = "custom") :
    AppEntitiesConvertor.check_custom_operator cfgs = true := by
  obtain ⟨p, hp, hname⟩ := h
  simp only [AppEntitiesConvertor.check_custom_operator, List.any_eq_true]
  exact ⟨p, hp, by simp [hname]⟩

/-- C1: an anonymize request whose parsed operator configs contain an
operator of kind "custom" fails with `BadRequest` (mapped to status 400,
never the 422 of `InvalidParam`), and the result is the same for every
engine, so the anonymization engine is not invoked. -/
theorem anonymize_rejects_custom_operator
    (c : Json) (o : Option Json) (cfgs : List (String × OperatorConfig))
    (hfal : c.isFalsy = false)
    (hget : c.dictGet "anonymizers" = .ok o)
    (hcfg : AppEntitiesConvertor.operators_config_from_json (o.getD .null) = .ok cfgs)
    (hcust : ∃ p ∈ cfgs, p.2.operator_name = "custom") :
    ∀ engine : AnonEngine,
      Server.anonymize engine (some c) =
        .error (.httpException "Custom type anonymizer is not supported" 400) ∧
      (Server.runEndpoint (Server.anonymize engine (some c))).status = 400 := by
  intro engine
  have hc := check_custom_operator_of_mem cfgs hcust
  have h1 : Server.anonymize engine (some c) =
      .error (.httpException "Custom type anonymizer is not supported" 400) := by
    simp [Server.anonymize, Server.requireContent, hfal, hget, hcfg, hc, Except.bind]
  exact ⟨h1, by rw [h1]; rfl⟩

/-- Witness for C1: a concrete request with a custom-kind anonymizer. -/
theorem anonymize_rejects_custom_operator_witness :
    Server.anonymize (fun _ _ _ => .ok ⟨"", []⟩)
      (some (Json.obj
        [("anonymizers", .obj [("X", .obj [("type", .str "custom")])])])) =
      .error (.httpException "Custom type anonymizer is not supported" 400) ∧
    (Server.runEndpoint (Server.anonymize (fun _ _ _ => .ok ⟨"", []⟩)
      (some (Json.obj
        [("anonymizers", .obj [("X", .obj [("type", .str "custom")])])])))).status
      = 400 :=
  anonymize_rejects_custom_operator
    (Json.obj [("anonymizers", .obj [("X", .obj [("type", .str "custom")])])])
    (some (.obj [("X", .obj [("type", .str "custom")])]))
    [("X", ⟨"custom", []⟩)]
    rfl rfl rfl ⟨("X", ⟨"custom", []⟩), List.Mem.head _, rfl⟩
    (fun _ _ _ => .ok ⟨"", []⟩)

/-- A raw analyzer-result mapping whose numeric offsets satisfy
`end <= start` never translates successfully. -/
lemma analyzer_result_bad_span (fields : List (String × Json)) (s e : Int)
    (hs : Json.lookupField "start" fields = some (.num s))
    (he : Json.lookupField "end" fields = some (.num e))
    (hse : e ≤ s) :
    ∃ m, AppEntitiesConvertor.analyzer_result_from_json (.obj fields) = .error m := by
  cases hx : AppEntitiesConvertor.analyzer_result_from_json (.obj fields) with
  | error m => exact ⟨m, rfl⟩
  | ok r =>
    exfalso
    simp only [AppEntitiesConvertor.analyzer_result_from_json] at hx
    rcases hET : Json.lookupField "entity_type" fields with _ | jv
    · simp [hET] at hx
    · cases jv
      case str et =>
        simp only [hET, hs, he] at hx
        split_ifs at hx
      all_goals simp [hET] at hx

/-- A raw analyzer-result sequence containing a bad-span element never
translates successfully. -/
lemma analyzer_results_from_list_bad (xs : List Json)
    (fields : List (String × Json)) (s e : Int)
    (hmem : Json.obj fields ∈ xs)
    (hs : Json.lookupField "start" fields = some (.num s))
    (he : Json.lookupField "end" fields = some (.num e))
    (hse : e ≤ s) :
    ∃ m, AppEntitiesConvertor.analyzer_results_from_list xs = .error m := by
  induction xs with
  | nil => cases hmem
  | cons x tail ih =>
    rcases List.mem_cons.mp hmem with h | h
    · obtain ⟨m, hm⟩ := analyzer_result_bad_span fields s e hs he hse
      exact ⟨m, by
        simp [AppEntitiesConvertor.analyzer_results_from_list, ← h, hm, Except.bind]⟩
    · cases hx : AppEntitiesConvertor.analyzer_result_from_json x with
      | error m =>
        exact ⟨m, by
          simp [AppEntitiesConvertor.analyzer_results_from_list, hx, Except.bind]⟩
      | ok r =>
        obtain ⟨m, hm⟩ := ih h
        exact ⟨m, by
          simp [AppEntitiesConvertor.analyzer_results_from_list, hx, hm, Except.bind]⟩

/-- C4: an anonymize request whose analyzer results contain an entity
with `start >= end` (such as a zero-width span) fails with
`InvalidParam` raised at translation time; the message and outcome are
the same for every engine, so the anonymization engine is never
invoked (translation strictly precedes dispatch). -/
theorem anonymize_zero_width_entity_invalid_param
    (c : Json) (o oR : Option Json) (cfgs : List (String × OperatorConfig))
    (xs : List Json) (fields : List (String × Json)) (s e : Int)
    (hfal : c.isFalsy = false)
    (hgetA : c.dictGet "anonymizers" = .ok o)
    (hcfg : AppEntitiesConvertor.operators_config_from_json (o.getD .null) = .ok cfgs)
    (hnoc : AppEntitiesConvertor.check_custom_operator cfgs = false)
    (hgetR : c.dictGet "analyzer_results" = .ok oR)
    (harr : oR.getD .null = .arr xs)
    (hmem : Json.obj fields ∈ xs)
    (hs : Json.lookupField "start" fields = some (.num s))
    (he : Json.lookupField "end" fields = some (.num e))
    (hse : e ≤ s) :
    ∃ msg, ∀ engine : AnonEngine,
      Server.anonymize engine (some c) = .error (.invalidParamError msg) := by
  obtain ⟨m, hm⟩ := analyzer_results_from_list_bad xs fields s e hmem hs he hse
  refine ⟨m, fun engine => ?_⟩
  simp [Server.anonymize, Server.requireContent, hfal, hgetA, hcfg, hnoc, hgetR,
    AppEntitiesConvertor.analyzer_results_from_json, harr, hm, Except.bind,
    Except.mapError]

/-- Witness for C4: the spec's end-to-end scenario 4, a zero-width
entity with `start = 10, end = 10`. -/
theorem anonymize_zero_width_entity_invalid_param_witness :
    ∃ msg, ∀ engine : AnonEngine,
      Server.anonymize engine
        (some (Json.obj [("text", .str "hello world etc"),
          ("analyzer_results", .arr [.obj [("entity_type", .str "PERSON"),
            ("start", .num 10), ("end", .num 10)]])])) =
        .error (.invalidParamError msg) :=
  anonymize_zero_width_entity_invalid_param
    (Json.obj [("text", .str "hello world etc"),
      ("analyzer_results", .arr [.obj [("entity_type", .str "PERSON"),
        ("start", .num 10), ("end", .num 10)]])])
    none
    (some (.arr [.obj [("entity_type", .str "PERSON"),
      ("start", .num 10), ("end", .num 10)]]))
    [("DEFAULT", ⟨"replace", []⟩)]
    [.obj [("entity_type", .str "PERSON"), ("start", .num 10), ("end", .num 10)]]
    [("entity_type", .str "PERSON"), ("start", .num 10), ("end", .num 10)]
    10 10
    rfl rfl rfl rfl rfl rfl (List.Mem.head _) rfl rfl (by decide)

/-- C5: the anonymize handler is deterministic in the request fields it
reads: two request bodies agreeing on `text`, `analyzer_results` and
`anonymizers` produce identical outcomes under any one engine (the
engine itself being a function of its inputs). -/
theorem anonymize_deterministic
    (c₁ c₂ : Json)
    (h₁ : c₁.isFalsy = false) (h₂ : c₂.isFalsy = false)
    (ht : c₁.dictGet "text" = c₂.dictGet "text")
    (ha : c₁.dictGet "analyzer_results" = c₂.dictGet "analyzer_results")
    (ho : c₁.dictGet "anonymizers" = c₂.dictGet "anonymizers") :
    ∀ engine : AnonEngine,
      Server.anonymize engine (some c₁) = Server.anonymize engine (some c₂) := by
  intro engine
  simp [Server.anonymize, Server.requireContent, Json.dictGetD, h₁, h₂, ht, ha, ho]

/-- Witness for C5: two bodies differing only in an unread extra field. -/
theorem anonymize_deterministic_witness :
    Server.anonymize (fun _ _ _ => .ok ⟨"out", [⟨"PERSON", 0, 1, "replace"⟩]⟩)
      (some (Json.obj [("text", .str "a"), ("extra", .num 1)])) =
    Server.anonymize (fun _ _ _ => .ok ⟨"out", [⟨"PERSON", 0, 1, "replace"⟩]⟩)
      (some (Json.obj [("text", .str "a")])) :=
  anonymize_deterministic
    (Json.obj [("text", .str "a"), ("extra", .num 1)])
    (Json.obj [("text", .str "a")])
    rfl rfl rfl rfl rfl
    (fun _ _ _ => .ok ⟨"out", [⟨"PERSON", 0, 1, "replace"⟩]⟩)

/-- C6: a well-formed body with the `text` field omitted is processed
with text equal to the empty string on both the anonymize and the
deanonymize path — the request is handed to the engine with text `""`,
not rejected as an error. -/
theorem omitted_text_defaults_to_empty
    (c d : Json) (o oR od : Option Json)
    (cfgs dcfgs : List (String × OperatorConfig))
    (rs : List RecognizerResult) (ents : List OperatorResult)
    (hfal : c.isFalsy = false)
    (htext : c.dictGet "text" = .ok none)
    (hgetA : c.dictGet "anonymizers" = .ok o)
    (hcfg : AppEntitiesConvertor.operators_config_from_json (o.getD .null) = .ok cfgs)
    (hnoc : AppEntitiesConvertor.check_custom_operator cfgs = false)
    (hgetR : c.dictGet "analyzer_results" = .ok oR)
    (hres : AppEntitiesConvertor.analyzer_results_from_json (oR.getD .null) = .ok rs)
    (hdfal : d.isFalsy = false)
    (hdtext : d.dictGet "text" = .ok none)
    (hents : AppEntitiesConvertor.deanonymize_entities_from_json d = .ok ents)
    (hgetD : d.dictGet "deanonymizers" = .ok od)
    (hdcfg : AppEntitiesConvertor.operators_config_from_json (od.getD .null) = .ok dcfgs) :
    ∀ (ae : AnonEngine) (de : DeanonEngine),
      Server.anonymize ae (some c) =
        Except.bind (ae (.str "") rs cfgs) (fun r => .ok r.to_json) ∧
      Server.deanonymize de (some d) =
        Except.bind (de (.str "") ents dcfgs) (fun r => .ok r.to_json) := by
  intro ae de
  constructor
  · cases hae : ae (.str "") rs cfgs <;>
      simp [Server.anonymize, Server.requireContent, Json.dictGetD, hfal, htext,
        hgetA, hcfg, hnoc, hgetR, hres, hae, Except.bind]
  · cases hde : de (.str "") ents dcfgs <;>
      simp [Server.deanonymize, Server.requireContent, Json.dictGetD, hdfal, hdtext,
        hents, hgetD, hdcfg, hde, Except.bind]

/-- Witness for C6: concrete anonymize and deanonymize bodies without a
`text` field. -/
theorem omitted_text_defaults_to_empty_witness :
    Server.anonymize (fun _ _ _ => .ok ⟨"anon", []⟩)
      (some (Json.obj [("analyzer_results", .arr [])])) =
      Except.bind ((fun (_ : Json) (_ : List RecognizerResult)
          (_ : List (String × OperatorConfig)) =>
          (.ok ⟨"anon", []⟩ : Except AppException EngineResult))
        (.str "") [] [("DEFAULT", ⟨"replace", []⟩)])
        (fun r => .ok r.to_json) ∧
    Server.deanonymize (fun _ _ _ => .ok ⟨"deanon", []⟩)
      (some (Json.obj [("anonymizer_results", .arr [])])) =
      Except.bind ((fun (_ : Json) (_ : List OperatorResult)
          (_ : List (String × OperatorConfig)) =>
          (.ok ⟨"deanon", []⟩ : Except AppException EngineResult))
        (.str "") [] [("DEFAULT", ⟨"replace", []⟩)])
        (fun r => .ok r.to_json) :=
  omitted_text_defaults_to_empty
    (Json.obj [("analyzer_results", .arr [])])
    (Json.obj [("anonymizer_results", .arr [])])
    none (some (.arr [])) none
    [("DEFAULT", ⟨"replace", []⟩)] [("DEFAULT", ⟨"replace", []⟩)]
    [] []
    rfl rfl rfl rfl rfl rfl rfl rfl rfl rfl rfl rfl
    (fun _ _ _ => .ok ⟨"anon", []⟩) (fun _ _ _ => .ok ⟨"deanon", []⟩)

/-- C7: the list-operators endpoints return exactly the respective
engine registry, unmodified and in order, and an operator name is
accepted by the translator's config parsing precisely when it is in that
registry. -/
theorem list_operators_match_registry (n : String) :
    Server.anonymizers =
      Json.arr (AnonymizerEngine.get_anonymizers.map Json.str) ∧
    Server.deanonymizers =
      Json.arr (DeanonymizeEngine.get_deanonymizers.map Json.str) ∧
    ((∃ cfg, AppEntitiesConvertor.operator_config_from_json
        (.obj [("type", .str n)]) = .ok cfg) ↔
      n ∈ AnonymizerEngine.get_anonymizers) := by
  refine ⟨rfl, rfl, ?_⟩
  by_cases h : n ∈ AppEntitiesConvertor.operatorRegistry <;>
    simp [AppEntitiesConvertor.operator_config_from_json, Json.lookupField,
      AnonymizerEngine.get_anonymizers, h]
